import Mathlib

/-!
# Verification of the budget threshold monitoring and alert-dispatch engine

Shallow embedding of the core services of the Smart Finance Management System:
`getBudgetStatusService` (backend/src/services/budget.service.ts),
`checkBudgetThresholdsService`, `sendBudgetAlertService` and
`getUserAlertsService` (alert service file), over the data model of
`alert.model.ts`, `user.model.ts` and `household.model.ts`.

Database documents are Lean structures; Mongo collections are Lean lists; the
async services become pure state-passing functions on a `DB` value.  JS numbers
are modelled as `ℚ` (money amounts are integer cents, `ℤ`, converted to dollar
units at the display boundary).  Dates are abstract `ℕ` instants; the
`startOfMonth`/`endOfMonth` values that the source derives from `now` via the
external date-fns library are passed in as explicit `monthStart`/`monthEnd`
parameters.
-/

/-- Budget scope, mirroring `BudgetTypeEnum` (`USER` | `HOUSEHOLD`) of the
budget model concatenated into `src/backend/src/models/user.model.ts`. -/
inductive BudgetType where
  | USER
  | HOUSEHOLD
deriving Repr, DecidableEq

/-- Transaction kind. Modelled from the spec: `transaction.model.ts` is not in
the sources; only `TransactionTypeEnum.EXPENSE` is consumed by the core
("sum of completed expense-type transactions", spec §4.1). -/
inductive TransactionType where
  | EXPENSE
  | INCOME
deriving Repr, DecidableEq

/-- Notification channel, mirroring `AlertTypeEnum` (`EMAIL` | `SMS`). -/
inductive AlertType where
  | EMAIL
  | SMS
deriving Repr, DecidableEq

/-- Alert lifecycle status, mirroring `AlertStatusEnum`. -/
inductive AlertStatus where
  | PENDING
  | SENT
  | FAILED
deriving Repr, DecidableEq

/-- Error taxonomy of `utils/app-error.ts` (not in the sources). Modelled from
the spec: §7 names `NotFound` and `BadRequest` as the conditions the core
propagates (`NotFoundException` / `BadRequestException` in the service code). -/
inductive AppError where
  | NotFound
  | BadRequest
deriving Repr, DecidableEq

/-- Budget document, from the budget model concatenated into
`src/backend/src/models/user.model.ts` (lines 71–148 hold the
`BudgetDocument` schema): optional `userId`/`householdId` (exactly one
required according to `type`), `type` in `BudgetTypeEnum`, `monthlyLimit` in
cents (schema `min: 0`; `ℤ` here, so the theorems quantify more broadly),
`name`, `isActive`. The mongoose timestamps are read by no service and are
dropped. Object ids are modelled as `ℕ`. -/
structure Budget where
  _id : ℕ
  type : BudgetType
  userId : Option ℕ
  householdId : Option ℕ
  monthlyLimit : ℤ
  name : String
  isActive : Bool
deriving Repr, DecidableEq

/-- Transaction document. Modelled from the spec: `transaction.model.ts` is not
in the sources; the fields are those the aggregation match query reads
(`type`, `date`, `status`, `userId`, `householdId`, `amount` in cents). -/
structure Transaction where
  userId : Option ℕ
  householdId : Option ℕ
  type : TransactionType
  status : String
  date : ℕ
  amount : ℤ
deriving Repr, DecidableEq

/-- User document, from `user.model.ts`. The schema requires `email`; the
dispatcher guards each channel on JS truthiness of `user.email` /
`user.phoneNumber`, which is modelled by `Option String` (an absent or empty
address is `none`). -/
structure User where
  _id : ℕ
  name : String
  email : Option String
  phoneNumber : Option String
deriving Repr, DecidableEq

/-- Household membership entry, from `household.model.ts`. -/
structure HouseholdMember where
  userId : ℕ
  role : String
  joinedAt : ℕ
deriving Repr, DecidableEq

/-- Household document, from `household.model.ts`. -/
structure Household where
  _id : ℕ
  name : String
  monthlyBudgetLimit : ℤ
  members : List HouseholdMember
deriving Repr, DecidableEq

/-- The status snapshot stored on each Alert row (`alert.model.ts` `metadata`):
spend, limit and percentage at evaluation time. -/
structure AlertMetadata where
  currentSpending : ℚ
  budgetLimit : ℚ
  percentageUsed : ℚ
deriving Repr, DecidableEq

/-- Alert document, from `alert.model.ts`. `createdAt` is the mongoose
timestamp set at creation. -/
structure Alert where
  userId : ℕ
  budgetId : ℕ
  householdId : Option ℕ
  alertType : AlertType
  threshold : ℕ
  status : AlertStatus
  sentAt : Option ℕ
  errorMessage : Option String
  metadata : Option AlertMetadata
  createdAt : ℕ
deriving Repr, DecidableEq

/-- The persistent store: one list per Mongo collection. -/
structure DB where
  budgets : List Budget
  transactions : List Transaction
  users : List User
  households : List Household
  alerts : List Alert
deriving Repr, DecidableEq

/-- `BudgetModel.findById`. -/
def findBudget (db : DB) (budgetId : ℕ) : Option Budget :=
  db.budgets.find? (fun b => b._id == budgetId)

/-- `UserModel.findById`. -/
def findUser (db : DB) (userId : ℕ) : Option User :=
  db.users.find? (fun u => u._id == userId)

/-- `HouseholdModel.findById`. -/
def findHousehold (db : DB) (householdId : ℕ) : Option Household :=
  db.households.find? (fun h => h._id == householdId)

/-- `convertToDollarUnit`. Modelled from the spec: `utils/format-currency.ts`
is not in the sources; the spec fixes integer minor-currency-unit (cent)
storage with conversion to display units at the boundary (§3, §6), i.e.
division by 100. -/
def convertToDollarUnit (cents : ℤ) : ℚ := (cents : ℚ) / 100

/-- JavaScript `Math.round`: round half toward positive infinity. -/
def jsRound (x : ℚ) : ℤ := ⌊x + 1 / 2⌋

/-- `Math.round(x * 100) / 100`: round to two decimal places. -/
def round2 (x : ℚ) : ℚ := (jsRound (x * 100) : ℚ) / 100

/-- The `$match` stage of the spend aggregation (budget.service.ts lines
55–68 and the identical query in the alert service): completed expense
transactions dated within the current month, owned by the budget's user
(USER scope) or household (HOUSEHOLD scope). -/
def txMatches (budget : Budget) (monthStart monthEnd : ℕ) (t : Transaction) : Bool :=
  t.type == TransactionType.EXPENSE
    && decide (monthStart ≤ t.date) && decide (t.date ≤ monthEnd)
    && t.status == "COMPLETED"
    && (match budget.type with
        | BudgetType.USER => t.userId == budget.userId
        | BudgetType.HOUSEHOLD => t.householdId == budget.householdId)

/-- The `$group`/`$sum` stage: total spent this month in cents
(`aggregationResult[0]?.totalSpent || 0`; the empty sum is 0). -/
def totalSpentCents (db : DB) (budget : Budget) (monthStart monthEnd : ℕ) : ℤ :=
  ((db.transactions.filter (txMatches budget monthStart monthEnd)).map
    (fun t => t.amount)).sum

/-- The status snapshot returned by `getBudgetStatusService`
(`BudgetStatus` interface in budget.service.ts). -/
structure BudgetStatus where
  totalSpentThisMonth : ℚ
  budgetLimit : ℚ
  remaining : ℚ
  overBudget : Bool
  percentageUsed : ℚ
deriving Repr, DecidableEq

/-- `getBudgetStatusService` (budget.service.ts lines 32–97): NotFound on an
absent budget; inactive budgets short-circuit to zero spend; otherwise the
status snapshot is computed from the ledger, with the percentage clamped to
100 and rounded to 2 decimals while `remaining`/`overBudget` stay unclamped. -/
def getBudgetStatusService (db : DB) (monthStart monthEnd : ℕ)
    (budgetId : ℕ) : Except AppError BudgetStatus :=
  match findBudget db budgetId with
  | none => .error AppError.NotFound
  | some budget =>
    if budget.isActive then
      let totalSpentThisMonth := convertToDollarUnit (totalSpentCents db budget monthStart monthEnd)
      let budgetLimit := convertToDollarUnit budget.monthlyLimit
      let remaining := budgetLimit - totalSpentThisMonth
      let overBudget := decide (budgetLimit < totalSpentThisMonth)
      let percentageUsed :=
        if 0 < budgetLimit then min (totalSpentThisMonth / budgetLimit * 100) 100 else 0
      .ok { totalSpentThisMonth := totalSpentThisMonth
            budgetLimit := budgetLimit
            remaining := remaining
            overBudget := overBudget
            percentageUsed := round2 percentageUsed }
    else
      .ok { totalSpentThisMonth := 0
            budgetLimit := convertToDollarUnit budget.monthlyLimit
            remaining := convertToDollarUnit budget.monthlyLimit
            overBudget := false
            percentageUsed := 0 }

/-- The external email send capability. Modelled from the spec: the mailer
(`mailers/mailer.ts`) is not in the sources; §6 fixes
`sendEmail(address, subject, body) → success|failure(detail)`. The outcome is
keyed by the recipient address; the rendered subject/body (alert service lines
146–168) are display strings and are not modelled. `.error msg` is a rejected
send whose exception message is `msg`. -/
structure DeliveryEnv where
  sendEmail : String → Except String Unit
deriving Inhabited

/-- The in-source SMS placeholder (alert service lines 12–17): it logs and
always resolves with success, so an SMS send never rejects. -/
def sendSMS (_phoneNumber : String) : Except String Unit := .ok ()

/-- The Alert row created on a successful channel send (status SENT,
`sentAt` set, no error message, metadata snapshot attached). -/
def sentAlertRow (user : User) (budget : Budget) (householdId : Option ℕ)
    (channel : AlertType) (threshold : ℕ) (now : ℕ) (m : AlertMetadata) : Alert :=
  { userId := user._id
    budgetId := budget._id
    householdId := householdId
    alertType := channel
    threshold := threshold
    status := AlertStatus.SENT
    sentAt := some now
    errorMessage := none
    metadata := some m
    createdAt := now }

/-- The Alert row created in a channel's catch block (status FAILED,
`errorMessage` = the failure's description, no `sentAt`). -/
def failedAlertRow (user : User) (budget : Budget) (householdId : Option ℕ)
    (channel : AlertType) (threshold : ℕ) (now : ℕ) (m : AlertMetadata)
    (msg : String) : Alert :=
  { userId := user._id
    budgetId := budget._id
    householdId := householdId
    alertType := channel
    threshold := threshold
    status := AlertStatus.FAILED
    sentAt := none
    errorMessage := some msg
    metadata := some m
    createdAt := now }

/-- The email channel block of `sendBudgetAlertService` (lines 143–196): no
row when the user has no email address; otherwise exactly one row whose status
records the send outcome. -/
def emailRows (env : DeliveryEnv) (user : User) (budget : Budget)
    (householdId : Option ℕ) (threshold : ℕ) (now : ℕ) (m : AlertMetadata) :
    List Alert :=
  match user.email with
  | none => []
  | some addr =>
    match env.sendEmail addr with
    | .ok _ => [sentAlertRow user budget householdId AlertType.EMAIL threshold now m]
    | .error msg => [failedAlertRow user budget householdId AlertType.EMAIL threshold now m msg]

/-- The SMS channel block of `sendBudgetAlertService` (lines 198–232): no row
when the user has no phone number; otherwise exactly one row whose status
records the outcome of `sendSMS` (always success for the in-source stub,
with the catch branch kept as in the source). -/
def smsRows (user : User) (budget : Budget) (householdId : Option ℕ)
    (threshold : ℕ) (now : ℕ) (m : AlertMetadata) : List Alert :=
  match user.phoneNumber with
  | none => []
  | some ph =>
    match sendSMS ph with
    | .ok _ => [sentAlertRow user budget householdId AlertType.SMS threshold now m]
    | .error msg => [failedAlertRow user budget householdId AlertType.SMS threshold now m msg]

/-- `sendBudgetAlertService` (alert service lines 116–235): silently returns
when the user or the budget cannot be found; otherwise attempts the email
channel then the SMS channel independently, appending one Alert row per
attempted channel. (The source also returns the array of successful alerts;
its callers ignore it, so only the state effect is modelled.) -/
def sendBudgetAlertService (env : DeliveryEnv) (db : DB) (now : ℕ)
    (userId budgetId : ℕ) (householdId : Option ℕ) (threshold : ℕ)
    (m : AlertMetadata) : DB :=
  match findUser db userId with
  | none => db
  | some user =>
    match findBudget db budgetId with
    | none => db
    | some budget =>
      { db with
          alerts := db.alerts
            ++ emailRows env user budget householdId threshold now m
            ++ smsRows user budget householdId threshold now m }

/-- The fixed threshold list of the evaluator (`AlertThresholdEnum`:
70, 90, 100). -/
def thresholds : List ℕ := [70, 90, 100]

/-- The dedup query of the Threshold Evaluator (alert service lines 86–93):
is there an Alert for this budget and threshold with status SENT created at or
after the start of the current month? Recipient and channel are not part of
the query. -/
def existsSentAlert (alerts : List Alert) (budgetOid : ℕ) (threshold : ℕ)
    (monthStart : ℕ) : Bool :=
  alerts.any (fun a =>
    a.budgetId == budgetOid && a.threshold == threshold
      && a.status == AlertStatus.SENT && decide (monthStart ≤ a.createdAt))

/-- Recipient resolution (alert service lines 63–74): the owning user for a
USER budget; every current member of the household for a HOUSEHOLD budget. -/
def usersToNotify (db : DB) (budget : Budget) : List ℕ :=
  match budget.type with
  | BudgetType.USER =>
    match budget.userId with
    | some uid => [uid]
    | none => []
  | BudgetType.HOUSEHOLD =>
    match budget.householdId with
    | some hid =>
      match findHousehold db hid with
      | some household => household.members.map (fun mem => mem.userId)
      | none => []
    | none => []

/-- The inner recipient loop (alert service lines 96–109): dispatch to each
user in turn, threading the store. -/
def dispatchToUsers (env : DeliveryEnv) (now : ℕ) (users : List ℕ)
    (budgetId : ℕ) (householdId : Option ℕ) (threshold : ℕ)
    (m : AlertMetadata) (db : DB) : DB :=
  users.foldl
    (fun acc uid => sendBudgetAlertService env acc now uid budgetId householdId threshold m)
    db

/-- The unclamped, unrounded percentage the threshold check compares against
(alert service lines 59–61); 0 when the limit is not positive. -/
def alertPercentageUsed (db : DB) (budget : Budget) (monthStart monthEnd : ℕ) : ℚ :=
  let totalSpent := convertToDollarUnit (totalSpentCents db budget monthStart monthEnd)
  let budgetLimit := convertToDollarUnit budget.monthlyLimit
  if 0 < budgetLimit then totalSpent / budgetLimit * 100 else 0

/-- Result of one threshold check: the updated store together with an
observation trace of the `sendBudgetAlertService` invocations made, as
(userId, threshold) pairs. The trace is bookkeeping for stating dispatch
properties; it is not data of the source. -/
structure CheckResult where
  db : DB
  dispatched : List (ℕ × ℕ)
deriving Repr, DecidableEq

/-- One iteration of the threshold loop (alert service lines 83–112): if the
percentage has reached the threshold and no SENT alert for (budget, threshold)
exists this month in the current store, dispatch to every resolved user. -/
def thresholdStep (env : DeliveryEnv) (now monthStart : ℕ) (users : List ℕ)
    (budgetId budgetOid : ℕ) (householdId : Option ℕ) (pct : ℚ)
    (m : AlertMetadata) (acc : CheckResult) (threshold : ℕ) : CheckResult :=
  if (threshold : ℚ) ≤ pct then
    if existsSentAlert acc.db.alerts budgetOid threshold monthStart then acc
    else
      { db := dispatchToUsers env now users budgetId householdId threshold m acc.db
        dispatched := acc.dispatched ++ users.map (fun uid => (uid, threshold)) }
  else acc

/-- `checkBudgetThresholdsService` (alert service lines 20–113): silently
returns when the budget is absent or inactive; otherwise computes this month's
spend and percentage, resolves the recipients once, and walks the threshold
list, dispatching each qualifying threshold that has no SENT alert this month.
The `Except` result records that the source function never signals an error
itself (it only ever resolves). -/
def checkBudgetThresholdsService (env : DeliveryEnv) (db : DB)
    (now monthStart monthEnd : ℕ) (budgetId : ℕ) :
    Except AppError CheckResult :=
  match findBudget db budgetId with
  | none => .ok { db := db, dispatched := [] }
  | some budget =>
    if budget.isActive then
      let totalSpent := convertToDollarUnit (totalSpentCents db budget monthStart monthEnd)
      let budgetLimit := convertToDollarUnit budget.monthlyLimit
      let pct := alertPercentageUsed db budget monthStart monthEnd
      let users := usersToNotify db budget
      let m : AlertMetadata :=
        { currentSpending := totalSpent, budgetLimit := budgetLimit, percentageUsed := pct }
      .ok (thresholds.foldl
        (thresholdStep env now monthStart users budgetId budget._id budget.householdId pct m)
        { db := db, dispatched := [] })
    else .ok { db := db, dispatched := [] }

/-- The optional query filters of `getUserAlertsService`. -/
structure AlertFilters where
  budgetId : Option ℕ
  status : Option AlertStatus
  threshold : Option ℕ
  limit : Option ℕ
deriving Repr, DecidableEq

/-- The find query built by `getUserAlertsService` (alert service lines
247–258): always keyed by the recipient; each optional filter is added only
when its value is JS-truthy, so a `threshold` of 0 adds no constraint. -/
def alertQueryMatches (userId : ℕ) (filters : AlertFilters) (a : Alert) : Bool :=
  a.userId == userId
    && (match filters.budgetId with
        | some b => a.budgetId == b
        | none => true)
    && (match filters.status with
        | some s => a.status == s
        | none => true)
    && (match filters.threshold with
        | some t => if t ≠ 0 then a.threshold == t else true
        | none => true)

/-- Descending creation-time order used by the ledger query
(`.sort` on `createdAt: -1`). -/
def createdDesc (a b : Alert) : Prop := b.createdAt ≤ a.createdAt

instance : DecidableRel createdDesc := fun a b => Nat.decLe b.createdAt a.createdAt

instance : IsTotal Alert createdDesc :=
  ⟨fun a b => le_total b.createdAt a.createdAt⟩

instance : IsTrans Alert createdDesc :=
  ⟨fun _ _ _ hab hbc => le_trans hbc hab⟩

/-- `getUserAlertsService` (alert service lines 238–269): the recipient's
alerts matching the query, in descending creation-time order, truncated to
`filters?.limit || 50` (so an absent — or JS-falsy 0 — limit becomes 50).
The `.populate` display joins carry no new alert data and are not modelled. -/
def getUserAlertsService (db : DB) (userId : ℕ) (filters : AlertFilters) :
    List Alert :=
  let matched := db.alerts.filter (alertQueryMatches userId filters)
  let lim := match filters.limit with
    | some l => if l ≠ 0 then l else 50
    | none => 50
  (List.insertionSort createdDesc matched).take lim

/-! ## Structural lemmas about the dispatcher and the threshold loop -/

/-- Every row the email channel block creates carries the dispatched
threshold. -/
theorem emailRows_threshold (env : DeliveryEnv) (user : User) (budget : Budget)
    (householdId : Option ℕ) (threshold now : ℕ) (m : AlertMetadata) :
    ∀ a ∈ emailRows env user budget householdId threshold now m, a.threshold = threshold := by
  intro a ha
  unfold emailRows at ha
  split at ha
  · simp at ha
  · split at ha <;> simp_all [sentAlertRow, failedAlertRow]

/-- Every row the SMS channel block creates carries the dispatched
threshold. -/
theorem smsRows_threshold (user : User) (budget : Budget)
    (householdId : Option ℕ) (threshold now : ℕ) (m : AlertMetadata) :
    ∀ a ∈ smsRows user budget householdId threshold now m, a.threshold = threshold := by
  intro a ha
  unfold smsRows at ha
  split at ha
  · simp at ha
  · split at ha <;> simp_all [sentAlertRow, failedAlertRow]

/-- One dispatch only appends alert rows, and every appended row carries the
dispatched threshold. -/
theorem sendBudgetAlertService_alerts (env : DeliveryEnv) (db : DB) (now : ℕ)
    (userId budgetId : ℕ) (householdId : Option ℕ) (threshold : ℕ)
    (m : AlertMetadata) :
    ∃ new, sendBudgetAlertService env db now userId budgetId householdId threshold m
        = { db with alerts := db.alerts ++ new }
      ∧ ∀ a ∈ new, a.threshold = threshold := by
  unfold sendBudgetAlertService
  rcases findUser db userId with _ | user
  · exact ⟨[], by simp, by simp⟩
  · rcases findBudget db budgetId with _ | budget
    · exact ⟨[], by simp, by simp⟩
    · refine ⟨emailRows env user budget householdId threshold now m
          ++ smsRows user budget householdId threshold now m,
        by simp [List.append_assoc], ?_⟩
      intro a ha
      rcases List.mem_append.mp ha with h | h
      · exact emailRows_threshold env user budget householdId threshold now m a h
      · exact smsRows_threshold user budget householdId threshold now m a h

/-- The recipient loop only appends alert rows, and every appended row carries
the dispatched threshold. -/
theorem dispatchToUsers_alerts (env : DeliveryEnv) (now : ℕ) (users : List ℕ)
    (budgetId : ℕ) (householdId : Option ℕ) (threshold : ℕ)
    (m : AlertMetadata) (db : DB) :
    ∃ new, dispatchToUsers env now users budgetId householdId threshold m db
        = { db with alerts := db.alerts ++ new }
      ∧ ∀ a ∈ new, a.threshold = threshold := by
  induction users generalizing db with
  | nil => exact ⟨[], by simp [dispatchToUsers], by simp⟩
  | cons uid rest ih =>
    obtain ⟨n1, h1, hn1⟩ :=
      sendBudgetAlertService_alerts env db now uid budgetId householdId threshold m
    obtain ⟨n2, h2, hn2⟩ := ih { db with alerts := db.alerts ++ n1 }
    refine ⟨n1 ++ n2, ?_, ?_⟩
    · show dispatchToUsers env now (uid :: rest) budgetId householdId threshold m db = _
      unfold dispatchToUsers at h2 ⊢
      simp only [List.foldl_cons, h1, h2, List.append_assoc]
    · intro a ha
      rcases List.mem_append.mp ha with h | h
      · exact hn1 a h
      · exact hn2 a h

/-- Number of Alert rows in the ledger carrying a given threshold. -/
def alertRowCount (alerts : List Alert) (threshold : ℕ) : ℕ :=
  (alerts.filter (fun a => a.threshold == threshold)).length

/-- Appending rows that all carry a different threshold changes no
threshold-`T` row count. -/
theorem alertRowCount_append_ne (alerts new : List Alert) (T T' : ℕ)
    (hnew : ∀ a ∈ new, a.threshold = T') (hne : T' ≠ T) :
    alertRowCount (alerts ++ new) T = alertRowCount alerts T := by
  unfold alertRowCount
  rw [List.filter_append, List.length_append]
  have : new.filter (fun a => a.threshold == T) = [] := by
    rw [List.filter_eq_nil_iff]
    intro a ha
    simp [hnew a ha, hne]
  simp [this]

/-- The dedup query stays positive when rows are appended. -/
theorem existsSentAlert_append_true (alerts new : List Alert)
    (budgetOid T monthStart : ℕ)
    (h : existsSentAlert alerts budgetOid T monthStart = true) :
    existsSentAlert (alerts ++ new) budgetOid T monthStart = true := by
  unfold existsSentAlert at h ⊢
  rw [List.any_append, h, Bool.true_or]

/-- The dedup query for threshold `T` is unaffected by appending rows that
all carry a different threshold. -/
theorem existsSentAlert_append_ne (alerts new : List Alert)
    (budgetOid T T' monthStart : ℕ)
    (hnew : ∀ a ∈ new, a.threshold = T') (hne : T' ≠ T) :
    existsSentAlert (alerts ++ new) budgetOid T monthStart
      = existsSentAlert alerts budgetOid T monthStart := by
  unfold existsSentAlert
  rw [List.any_append]
  have : new.any (fun a =>
      a.budgetId == budgetOid && a.threshold == T
        && a.status == AlertStatus.SENT && decide (monthStart ≤ a.createdAt)) = false := by
    rw [List.any_eq_false]
    intro a ha
    simp [hnew a ha, hne]
  rw [this, Bool.or_false]

section ThresholdLoop

variable (env : DeliveryEnv) (now monthStart : ℕ) (users : List ℕ)
  (budgetId budgetOid : ℕ) (householdId : Option ℕ) (pct : ℚ) (m : AlertMetadata)

/-- A threshold whose dedup query is positive in the current store is
skipped outright. -/
theorem thresholdStep_skip (acc : CheckResult) (T : ℕ)
    (h : existsSentAlert acc.db.alerts budgetOid T monthStart = true) :
    thresholdStep env now monthStart users budgetId budgetOid householdId pct m acc T
      = acc := by
  unfold thresholdStep
  rw [h]
  simp

/-- A qualifying threshold with a negative dedup query dispatches to every
resolved user and records the dispatches. -/
theorem thresholdStep_fire (acc : CheckResult) (T : ℕ)
    (hp : (T : ℚ) ≤ pct)
    (hd : existsSentAlert acc.db.alerts budgetOid T monthStart = false) :
    thresholdStep env now monthStart users budgetId budgetOid householdId pct m acc T
      = { db := dispatchToUsers env now users budgetId householdId T m acc.db
          dispatched := acc.dispatched ++ users.map (fun uid => (uid, T)) } := by
  unfold thresholdStep
  rw [hd]
  simp [hp]

/-- One loop iteration only appends alert rows, all carrying that iteration's
threshold, and only appends dispatch records, all carrying that iteration's
threshold. -/
theorem thresholdStep_extend (acc : CheckResult) (T : ℕ) :
    ∃ newAlerts newDispatched,
      (thresholdStep env now monthStart users budgetId budgetOid householdId pct m acc T).db.alerts
          = acc.db.alerts ++ newAlerts
        ∧ (∀ a ∈ newAlerts, a.threshold = T)
        ∧ (thresholdStep env now monthStart users budgetId budgetOid householdId pct m acc T).dispatched
          = acc.dispatched ++ newDispatched
        ∧ (∀ p ∈ newDispatched, p.2 = T) := by
  unfold thresholdStep
  split
  · split
    · exact ⟨[], [], by simp, by simp, by simp, by simp⟩
    · obtain ⟨new, hnew, hth⟩ :=
        dispatchToUsers_alerts env now users budgetId householdId T m acc.db
      refine ⟨new, users.map (fun uid => (uid, T)), by rw [hnew], hth, rfl, ?_⟩
      intro p hp
      obtain ⟨uid, _, rfl⟩ := List.mem_map.mp hp
      rfl
  · exact ⟨[], [], by simp, by simp, by simp, by simp⟩

/-- Walking any threshold list preserves a positive dedup answer for `T`,
creates no new threshold-`T` rows, and dispatches nothing for `T`. -/
theorem foldl_thresholdStep_suppressed (Ts : List ℕ) (acc : CheckResult) (T : ℕ)
    (h : existsSentAlert acc.db.alerts budgetOid T monthStart = true) :
    existsSentAlert
        (Ts.foldl (thresholdStep env now monthStart users budgetId budgetOid householdId pct m) acc).db.alerts
        budgetOid T monthStart = true
      ∧ alertRowCount
          (Ts.foldl (thresholdStep env now monthStart users budgetId budgetOid householdId pct m) acc).db.alerts T
        = alertRowCount acc.db.alerts T
      ∧ ∀ p ∈ (Ts.foldl (thresholdStep env now monthStart users budgetId budgetOid householdId pct m) acc).dispatched,
          p ∈ acc.dispatched ∨ p.2 ≠ T := by
  induction Ts generalizing acc with
  | nil => exact ⟨h, rfl, fun p hp => Or.inl hp⟩
  | cons T' rest ih =>
    rw [List.foldl_cons]
    by_cases hTT : T' = T
    · subst hTT
      rw [thresholdStep_skip env now monthStart users budgetId budgetOid householdId pct m acc T' h]
      exact ih acc h
    · obtain ⟨newA, newD, hA, hAth, hD, hDth⟩ :=
        thresholdStep_extend env now monthStart users budgetId budgetOid householdId pct m acc T'
      set acc' := thresholdStep env now monthStart users budgetId budgetOid householdId pct m acc T' with hacc'
      have h' : existsSentAlert acc'.db.alerts budgetOid T monthStart = true := by
        rw [hA]
        exact existsSentAlert_append_true _ _ _ _ _ h
      obtain ⟨ih1, ih2, ih3⟩ := ih acc' h'
      refine ⟨ih1, ?_, ?_⟩
      · rw [ih2, hA, alertRowCount_append_ne acc.db.alerts newA T T' hAth hTT]
      · intro p hp
        rcases ih3 p hp with hmem | hne
        · rw [hD] at hmem
          rcases List.mem_append.mp hmem with h1 | h2
          · exact Or.inl h1
          · exact Or.inr (by rw [hDth p h2]; exact hTT)
        · exact Or.inr hne

end ThresholdLoop

section ThresholdLoopFire

variable (env : DeliveryEnv) (now monthStart : ℕ) (users : List ℕ)
  (budgetId budgetOid : ℕ) (householdId : Option ℕ) (pct : ℚ) (m : AlertMetadata)

/-- Dispatch records are never removed by the rest of the loop. -/
theorem foldl_thresholdStep_dispatched_mono (Ts : List ℕ) (acc : CheckResult)
    (p : ℕ × ℕ) (h : p ∈ acc.dispatched) :
    p ∈ (Ts.foldl (thresholdStep env now monthStart users budgetId budgetOid householdId pct m) acc).dispatched := by
  induction Ts generalizing acc with
  | nil => exact h
  | cons T' rest ih =>
    rw [List.foldl_cons]
    obtain ⟨_, newD, _, _, hD, _⟩ :=
      thresholdStep_extend env now monthStart users budgetId budgetOid householdId pct m acc T'
    exact ih _ (by rw [hD]; exact List.mem_append_left newD h)

/-- If some threshold in the list qualifies and has a negative dedup answer
when the loop reaches the store, every resolved user is dispatched for it. -/
theorem foldl_thresholdStep_fires (Ts : List ℕ) (acc : CheckResult) (T : ℕ)
    (hT : T ∈ Ts) (hp : (T : ℚ) ≤ pct)
    (hd : existsSentAlert acc.db.alerts budgetOid T monthStart = false) :
    ∀ uid ∈ users,
      (uid, T) ∈ (Ts.foldl (thresholdStep env now monthStart users budgetId budgetOid householdId pct m) acc).dispatched := by
  induction Ts generalizing acc with
  | nil => exact absurd hT (List.not_mem_nil T)
  | cons T' rest ih =>
    intro uid huid
    rw [List.foldl_cons]
    by_cases hTT : T' = T
    · subst hTT
      rw [thresholdStep_fire env now monthStart users budgetId budgetOid householdId pct m acc T' hp hd]
      refine foldl_thresholdStep_dispatched_mono env now monthStart users budgetId budgetOid householdId pct m
        rest _ (uid, T') ?_
      exact List.mem_append_right _ (List.mem_map.mpr ⟨uid, huid, rfl⟩)
    · rcases List.mem_cons.mp hT with rfl | hT'
      · exact absurd rfl hTT
      · obtain ⟨newA, _, hA, hAth, _, _⟩ :=
          thresholdStep_extend env now monthStart users budgetId budgetOid householdId pct m acc T'
        refine ih _ hT' ?_ uid huid
        rw [hA, existsSentAlert_append_ne acc.db.alerts newA budgetOid T T' monthStart hAth hTT]
        exact hd

end ThresholdLoopFire

/-- The metadata snapshot a check attaches to every alert it dispatches. -/
def checkMetadata (db : DB) (budget : Budget) (monthStart monthEnd : ℕ) : AlertMetadata :=
  { currentSpending := convertToDollarUnit (totalSpentCents db budget monthStart monthEnd)
    budgetLimit := convertToDollarUnit budget.monthlyLimit
    percentageUsed := alertPercentageUsed db budget monthStart monthEnd }

/-- On an existing active budget a check is exactly the threshold loop. -/
theorem checkBudgetThresholdsService_eq (env : DeliveryEnv) (db : DB)
    (now monthStart monthEnd budgetId : ℕ) (budget : Budget)
    (hb : findBudget db budgetId = some budget) (ha : budget.isActive = true) :
    checkBudgetThresholdsService env db now monthStart monthEnd budgetId
      = .ok (thresholds.foldl
          (thresholdStep env now monthStart (usersToNotify db budget) budgetId budget._id
            budget.householdId (alertPercentageUsed db budget monthStart monthEnd)
            (checkMetadata db budget monthStart monthEnd))
          { db := db, dispatched := [] }) := by
  unfold checkBudgetThresholdsService checkMetadata
  rw [hb]
  simp [ha, alertPercentageUsed]

/-- Shared suppression fact: a SENT alert for (budget, `T`) this month in the
ledger means the check adds no threshold-`T` row and dispatches no
(recipient, `T`) pair. -/
theorem check_suppressed (env : DeliveryEnv) (db : DB)
    (now monthStart monthEnd budgetId : ℕ) (budget : Budget) (T : ℕ)
    (res : CheckResult)
    (hres : checkBudgetThresholdsService env db now monthStart monthEnd budgetId = .ok res)
    (hb : findBudget db budgetId = some budget) (ha : budget.isActive = true)
    (hsent : existsSentAlert db.alerts budget._id T monthStart = true) :
    alertRowCount res.db.alerts T = alertRowCount db.alerts T
      ∧ ∀ uid : ℕ, (uid, T) ∉ res.dispatched := by
  rw [checkBudgetThresholdsService_eq env db now monthStart monthEnd budgetId budget hb ha] at hres
  injection hres with hres
  subst hres
  refine ⟨?_, ?_⟩
  · exact (foldl_thresholdStep_suppressed env now monthStart (usersToNotify db budget) budgetId
      budget._id budget.householdId (alertPercentageUsed db budget monthStart monthEnd)
      (checkMetadata db budget monthStart monthEnd) thresholds
      { db := db, dispatched := [] } T hsent).2.1
  · intro uid hmem
    rcases (foldl_thresholdStep_suppressed env now monthStart (usersToNotify db budget) budgetId
        budget._id budget.householdId (alertPercentageUsed db budget monthStart monthEnd)
        (checkMetadata db budget monthStart monthEnd) thresholds
        { db := db, dispatched := [] } T hsent).2.2 (uid, T) hmem with h | h
    · simp at h
    · exact h rfl

/-- Shared dispatch fact: a qualifying threshold with no SENT alert this month
is dispatched to every resolved recipient. -/
theorem check_fires (env : DeliveryEnv) (db : DB)
    (now monthStart monthEnd budgetId : ℕ) (budget : Budget) (T : ℕ)
    (res : CheckResult)
    (hres : checkBudgetThresholdsService env db now monthStart monthEnd budgetId = .ok res)
    (hb : findBudget db budgetId = some budget) (ha : budget.isActive = true)
    (hT : T ∈ thresholds)
    (hp : (T : ℚ) ≤ alertPercentageUsed db budget monthStart monthEnd)
    (hsent : existsSentAlert db.alerts budget._id T monthStart = false) :
    ∀ uid ∈ usersToNotify db budget, (uid, T) ∈ res.dispatched := by
  rw [checkBudgetThresholdsService_eq env db now monthStart monthEnd budgetId budget hb ha] at hres
  injection hres with hres
  subst hres
  exact foldl_thresholdStep_fires env now monthStart (usersToNotify db budget) budgetId
    budget._id budget.householdId (alertPercentageUsed db budget monthStart monthEnd)
    (checkMetadata db budget monthStart monthEnd) thresholds
    { db := db, dispatched := [] } T hT hp hsent

/-- Each member of the fixed threshold list is at most 100. -/
theorem thresholds_le_100 (T : ℕ) (hT : T ∈ thresholds) : (T : ℚ) ≤ 100 := by
  simp only [thresholds, List.mem_cons, List.not_mem_nil, or_false] at hT
  rcases hT with rfl | rfl | rfl <;> norm_num

/-! ## Example data used by the witnesses -/

/-- A delivery environment whose email sends all succeed. -/
def okEnv : DeliveryEnv := { sendEmail := fun _ => .ok () }

/-- Example user with both an email address and a phone number. -/
def exUser : User :=
  { _id := 7, name := "Ada", email := some "ada@example.com", phoneNumber := some "5550001" }

/-- Example active USER-scope budget with a $500.00 monthly limit. -/
def exBudget : Budget :=
  { _id := 1, type := BudgetType.USER, userId := some 7, householdId := none,
    monthlyLimit := 50000, name := "Groceries", isActive := true }

/-- Example completed expense of $475.00 this month for user 7. -/
def exTx95 : Transaction :=
  { userId := some 7, householdId := none, type := TransactionType.EXPENSE,
    status := "COMPLETED", date := 5, amount := 47500 }

/-- Example completed expense of $620.00 this month for user 7. -/
def exTxOver : Transaction :=
  { userId := some 7, householdId := none, type := TransactionType.EXPENSE,
    status := "COMPLETED", date := 5, amount := 62000 }

/-- An already-SENT threshold-90 alert for budget 1, created this month. -/
def exSentAlert90 : Alert :=
  { userId := 7, budgetId := 1, householdId := none, alertType := AlertType.EMAIL,
    threshold := 90, status := AlertStatus.SENT, sentAt := some 3,
    errorMessage := none, metadata := none, createdAt := 3 }

/-- Store at 95% usage with the threshold-90 alert already SENT. -/
def exDbSent90 : DB :=
  { budgets := [exBudget], transactions := [exTx95], users := [exUser],
    households := [], alerts := [exSentAlert90] }

/-- Store at 124% usage with an empty alert ledger. -/
def exDbOver : DB :=
  { budgets := [exBudget], transactions := [exTxOver], users := [exUser],
    households := [], alerts := [] }

/-! ## The claims -/

/-- Claim C1: per-period idempotence of threshold alerts. For every budget
and threshold T of the fixed set, when the check runs with
percentageUsed ≥ T: if a SENT alert for (budget, T) created at or after the
start of the period already exists, the check dispatches nothing for T and
creates no additional threshold-T Alert row; conversely, when no such SENT
alert exists (in particular when only FAILED alerts exist, since the dedup
query matches status SENT only), the check dispatches T to every resolved
recipient. -/
theorem C1_threshold_idempotence (env : DeliveryEnv) (db : DB)
    (now monthStart monthEnd budgetId : ℕ) (budget : Budget) (T : ℕ)
    (hb : findBudget db budgetId = some budget) (ha : budget.isActive = true)
    (hT : T ∈ thresholds)
    (hp : (T : ℚ) ≤ alertPercentageUsed db budget monthStart monthEnd) :
    ∃ res, checkBudgetThresholdsService env db now monthStart monthEnd budgetId = .ok res
      ∧ (existsSentAlert db.alerts budget._id T monthStart = true →
           alertRowCount res.db.alerts T = alertRowCount db.alerts T
             ∧ ∀ uid : ℕ, (uid, T) ∉ res.dispatched)
      ∧ (existsSentAlert db.alerts budget._id T monthStart = false →
           ∀ uid ∈ usersToNotify db budget, (uid, T) ∈ res.dispatched) := by
  have heq := checkBudgetThresholdsService_eq env db now monthStart monthEnd budgetId budget hb ha
  exact ⟨_, heq,
    fun hsent =>
      check_suppressed env db now monthStart monthEnd budgetId budget T _ heq hb ha hsent,
    fun hsent =>
      check_fires env db now monthStart monthEnd budgetId budget T _ heq hb ha hT hp hsent⟩

section DecideWitnesses

attribute [local semireducible] Rat.add Rat.mul Rat.sub Rat.inv

/-- Witness for C1 at a concrete store: budget 1 at 95% usage with a SENT
threshold-90 alert already in this month's ledger. -/
theorem C1_threshold_idempotence_witness :
    ∃ res, checkBudgetThresholdsService okEnv exDbSent90 10 0 30 1 = .ok res
      ∧ (existsSentAlert exDbSent90.alerts exBudget._id 90 0 = true →
           alertRowCount res.db.alerts 90 = alertRowCount exDbSent90.alerts 90
             ∧ ∀ uid : ℕ, (uid, 90) ∉ res.dispatched)
      ∧ (existsSentAlert exDbSent90.alerts exBudget._id 90 0 = false →
           ∀ uid ∈ usersToNotify exDbSent90 exBudget, (uid, 90) ∈ res.dispatched) :=
  C1_threshold_idempotence okEnv exDbSent90 10 0 30 1 exBudget 90
    (by decide) (by decide) (by decide) (by decide)

end DecideWitnesses

/-- Claim C4: all qualifying thresholds fire in one check. For a budget with
no SENT alert this period for any threshold, a single check at
percentageUsed ≥ 100 dispatches every threshold of {70, 90, 100} to every
resolved recipient — each threshold evaluated independently, not only the
highest. -/
theorem C4_all_thresholds_fire (env : DeliveryEnv) (db : DB)
    (now monthStart monthEnd budgetId : ℕ) (budget : Budget)
    (hb : findBudget db budgetId = some budget) (ha : budget.isActive = true)
    (hclean : ∀ T ∈ thresholds, existsSentAlert db.alerts budget._id T monthStart = false)
    (hp : (100 : ℚ) ≤ alertPercentageUsed db budget monthStart monthEnd) :
    ∃ res, checkBudgetThresholdsService env db now monthStart monthEnd budgetId = .ok res
      ∧ ∀ uid ∈ usersToNotify db budget, ∀ T ∈ thresholds, (uid, T) ∈ res.dispatched := by
  have heq := checkBudgetThresholdsService_eq env db now monthStart monthEnd budgetId budget hb ha
  refine ⟨_, heq, ?_⟩
  intro uid huid T hT
  exact check_fires env db now monthStart monthEnd budgetId budget T _ heq hb ha hT
    (le_trans (thresholds_le_100 T hT) hp) (hclean T hT) uid huid

/-- Claim C9: deduplication is keyed on (budget, threshold, period) only.
A single SENT alert row for the budget and threshold this period — whatever
its recipient (`a.userId`) and channel (`a.alertType`) — suppresses dispatch
of that threshold to every recipient, including recipients resolved for the
first time on this check, and no new threshold-T row is created. -/
theorem C9_dedup_ignores_recipient_and_channel (env : DeliveryEnv) (db : DB)
    (now monthStart monthEnd budgetId : ℕ) (budget : Budget) (T : ℕ) (a : Alert)
    (hb : findBudget db budgetId = some budget) (ha : budget.isActive = true)
    (hT : T ∈ thresholds)
    (haMem : a ∈ db.alerts) (haB : a.budgetId = budget._id) (haT : a.threshold = T)
    (haS : a.status = AlertStatus.SENT) (haC : monthStart ≤ a.createdAt) :
    ∃ res, checkBudgetThresholdsService env db now monthStart monthEnd budgetId = .ok res
      ∧ alertRowCount res.db.alerts T = alertRowCount db.alerts T
      ∧ ∀ uid : ℕ, (uid, T) ∉ res.dispatched := by
  have hsent : existsSentAlert db.alerts budget._id T monthStart = true := by
    unfold existsSentAlert
    rw [List.any_eq_true]
    exact ⟨a, haMem, by simp [haB, haT, haS, haC]⟩
  have heq := checkBudgetThresholdsService_eq env db now monthStart monthEnd budgetId budget hb ha
  obtain ⟨h1, h2⟩ :=
    check_suppressed env db now monthStart monthEnd budgetId budget T _ heq hb ha hsent
  exact ⟨_, heq, h1, h2⟩

section DecideWitnesses2

attribute [local semireducible] Rat.add Rat.mul Rat.sub Rat.inv

/-- Witness for C4 at a concrete store: budget 1 at 124% usage with an empty
alert ledger dispatches 70, 90 and 100 to user 7 in one check. -/
theorem C4_all_thresholds_fire_witness :
    ∃ res, checkBudgetThresholdsService okEnv exDbOver 10 0 30 1 = .ok res
      ∧ ∀ uid ∈ usersToNotify exDbOver exBudget, ∀ T ∈ thresholds, (uid, T) ∈ res.dispatched :=
  C4_all_thresholds_fire okEnv exDbOver 10 0 30 1 exBudget
    (by decide) (by decide) (by decide) (by decide)

/-- A SENT threshold-90 alert for budget 1 sent to a different user (99) over
SMS, created this month. -/
def exForeignSent90 : Alert :=
  { userId := 99, budgetId := 1, householdId := none, alertType := AlertType.SMS,
    threshold := 90, status := AlertStatus.SENT, sentAt := some 3,
    errorMessage := none, metadata := none, createdAt := 3 }

/-- Store at 95% usage where only user 99's SMS alert for threshold 90
exists. -/
def exDbForeign : DB :=
  { budgets := [exBudget], transactions := [exTx95], users := [exUser],
    households := [], alerts := [exForeignSent90] }

/-- Witness for C9 at a concrete store: user 99's SMS alert for threshold 90
suppresses dispatch of threshold 90 to everyone, including user 7. -/
theorem C9_dedup_ignores_recipient_and_channel_witness :
    ∃ res, checkBudgetThresholdsService okEnv exDbForeign 10 0 30 1 = .ok res
      ∧ alertRowCount res.db.alerts 90 = alertRowCount exDbForeign.alerts 90
      ∧ ∀ uid : ℕ, (uid, 90) ∉ res.dispatched :=
  C9_dedup_ignores_recipient_and_channel okEnv exDbForeign 10 0 30 1 exBudget 90
    exForeignSent90 (by decide) (by decide) (by decide) (by decide) (by decide)
    (by decide) (by decide) (by decide)

end DecideWitnesses2

/-- Rounding to two decimals preserves nonnegativity. -/
theorem round2_nonneg (x : ℚ) (h0 : 0 ≤ x) : 0 ≤ round2 x := by
  unfold round2 jsRound
  have hfl : (0 : ℤ) ≤ ⌊x * 100 + 1 / 2⌋ := by
    rw [Int.le_floor]
    push_cast
    linarith
  positivity

/-- Rounding to two decimals preserves the bound at 100. -/
theorem round2_le_100 (x : ℚ) (h1 : x ≤ 100) : round2 x ≤ 100 := by
  unfold round2 jsRound
  have hfl : ⌊x * 100 + 1 / 2⌋ < 10001 := by
    rw [Int.floor_lt]
    push_cast
    linarith
  have hfl' : (⌊x * 100 + 1 / 2⌋ : ℚ) ≤ 10000 := by
    exact_mod_cast Int.lt_add_one_iff.mp hfl
  linarith

/-- Claim C2: Status Calculator percentage. On an existing active budget the
returned percentageUsed equals round2 of the clamped ratio
min(spend/limit × 100, 100) when limit > 0, equals 0 when limit = 0, and —
for nonnegative spend — always lies in [0, 100]. -/
theorem C2_percentage_formula (db : DB) (monthStart monthEnd budgetId : ℕ)
    (budget : Budget)
    (hb : findBudget db budgetId = some budget) (ha : budget.isActive = true) :
    ∃ st, getBudgetStatusService db monthStart monthEnd budgetId = .ok st
      ∧ (0 < convertToDollarUnit budget.monthlyLimit →
           st.percentageUsed = round2 (min
             (convertToDollarUnit (totalSpentCents db budget monthStart monthEnd)
               / convertToDollarUnit budget.monthlyLimit * 100) 100))
      ∧ (convertToDollarUnit budget.monthlyLimit = 0 → st.percentageUsed = 0)
      ∧ (0 ≤ convertToDollarUnit (totalSpentCents db budget monthStart monthEnd) →
           0 ≤ st.percentageUsed ∧ st.percentageUsed ≤ 100) := by
  unfold getBudgetStatusService
  rw [hb]
  simp only [ha, if_true]
  refine ⟨_, rfl, ?_, ?_, ?_⟩
  · intro hl
    simp [if_pos hl]
  · intro hl
    rw [hl]
    norm_num [round2, jsRound]
  · intro hs
    by_cases hl : 0 < convertToDollarUnit budget.monthlyLimit
    · simp only [if_pos hl]
      constructor
      · exact round2_nonneg _ (le_min (by positivity) (by norm_num))
      · exact round2_le_100 _ (min_le_right _ _)
    · simp only [if_neg hl]
      norm_num [round2, jsRound]

/-- Claim C3: unclamped asymmetry of the status snapshot. On an existing
active budget, overBudget is exactly spend > limit and remaining is exactly
limit − spend, neither clamped; so with spend strictly above the limit,
overBudget is true and remaining is negative while percentageUsed still caps
at 100. -/
theorem C3_unclamped_asymmetry (db : DB) (monthStart monthEnd budgetId : ℕ)
    (budget : Budget)
    (hb : findBudget db budgetId = some budget) (ha : budget.isActive = true) :
    ∃ st, getBudgetStatusService db monthStart monthEnd budgetId = .ok st
      ∧ st.overBudget = decide (convertToDollarUnit budget.monthlyLimit
          < convertToDollarUnit (totalSpentCents db budget monthStart monthEnd))
      ∧ st.remaining = convertToDollarUnit budget.monthlyLimit
          - convertToDollarUnit (totalSpentCents db budget monthStart monthEnd)
      ∧ (convertToDollarUnit budget.monthlyLimit
            < convertToDollarUnit (totalSpentCents db budget monthStart monthEnd) →
           st.overBudget = true ∧ st.remaining < 0 ∧ st.percentageUsed ≤ 100) := by
  unfold getBudgetStatusService
  rw [hb]
  simp only [ha, if_true]
  refine ⟨_, rfl, rfl, rfl, ?_⟩
  intro hover
  refine ⟨by simp [hover], by simpa using hover, ?_⟩
  by_cases hl : 0 < convertToDollarUnit budget.monthlyLimit
  · simp only [if_pos hl]
    exact round2_le_100 _ (min_le_right _ _)
  · simp only [if_neg hl]
    norm_num [round2, jsRound]

/-- Store at 95% usage with an empty alert ledger. -/
def exDb95 : DB :=
  { budgets := [exBudget], transactions := [exTx95], users := [exUser],
    households := [], alerts := [] }

/-- Example active budget with a $100.00 monthly limit. -/
def exBudgetSmall : Budget :=
  { _id := 2, type := BudgetType.USER, userId := some 7, householdId := none,
    monthlyLimit := 10000, name := "Dining", isActive := true }

/-- Example completed expense of $150.00 this month for user 7. -/
def exTx150 : Transaction :=
  { userId := some 7, householdId := none, type := TransactionType.EXPENSE,
    status := "COMPLETED", date := 6, amount := 15000 }

/-- Store where budget 2 is overspent: $150.00 against a $100.00 limit. -/
def exDb150 : DB :=
  { budgets := [exBudgetSmall], transactions := [exTx150], users := [exUser],
    households := [], alerts := [] }

section DecideWitnesses3

attribute [local semireducible] Rat.add Rat.mul Rat.sub Rat.inv

/-- Witness for C2 at a concrete store: budget 1 with $475.00 spent against a
$500.00 limit. -/
theorem C2_percentage_formula_witness :
    ∃ st, getBudgetStatusService exDb95 0 30 1 = .ok st
      ∧ (0 < convertToDollarUnit exBudget.monthlyLimit →
           st.percentageUsed = round2 (min
             (convertToDollarUnit (totalSpentCents exDb95 exBudget 0 30)
               / convertToDollarUnit exBudget.monthlyLimit * 100) 100))
      ∧ (convertToDollarUnit exBudget.monthlyLimit = 0 → st.percentageUsed = 0)
      ∧ (0 ≤ convertToDollarUnit (totalSpentCents exDb95 exBudget 0 30) →
           0 ≤ st.percentageUsed ∧ st.percentageUsed ≤ 100) :=
  C2_percentage_formula exDb95 0 30 1 exBudget (by decide) (by decide)

/-- Witness for C3 at a concrete store: budget 2 with $150.00 spent against a
$100.00 limit, so overBudget is true and remaining is −$50.00. -/
theorem C3_unclamped_asymmetry_witness :
    (∃ st, getBudgetStatusService exDb150 0 30 2 = .ok st
      ∧ st.overBudget = decide (convertToDollarUnit exBudgetSmall.monthlyLimit
          < convertToDollarUnit (totalSpentCents exDb150 exBudgetSmall 0 30))
      ∧ st.remaining = convertToDollarUnit exBudgetSmall.monthlyLimit
          - convertToDollarUnit (totalSpentCents exDb150 exBudgetSmall 0 30)
      ∧ (convertToDollarUnit exBudgetSmall.monthlyLimit
            < convertToDollarUnit (totalSpentCents exDb150 exBudgetSmall 0 30) →
           st.overBudget = true ∧ st.remaining < 0 ∧ st.percentageUsed ≤ 100))
    ∧ ∃ st, getBudgetStatusService exDb150 0 30 2 = .ok st
        ∧ st.remaining = -50 ∧ st.overBudget = true ∧ st.percentageUsed = 100 := by
  constructor
  · exact C3_unclamped_asymmetry exDb150 0 30 2 exBudgetSmall (by decide) (by decide)
  · exact ⟨_, rfl, by decide, by decide, by decide⟩

end DecideWitnesses3

/-- The email channel block with no address present creates no row. -/
theorem emailRows_eq_none (env : DeliveryEnv) (user : User) (budget : Budget)
    (householdId : Option ℕ) (threshold now : ℕ) (m : AlertMetadata)
    (he : user.email = none) :
    emailRows env user budget householdId threshold now m = [] := by
  unfold emailRows
  rw [he]

/-- The email channel block with an address present is one row decided by the
send outcome. -/
theorem emailRows_eq_some (env : DeliveryEnv) (user : User) (budget : Budget)
    (householdId : Option ℕ) (threshold now : ℕ) (m : AlertMetadata)
    (addr : String) (he : user.email = some addr) :
    emailRows env user budget householdId threshold now m
      = match env.sendEmail addr with
        | .ok _ => [sentAlertRow user budget householdId AlertType.EMAIL threshold now m]
        | .error msg =>
            [failedAlertRow user budget householdId AlertType.EMAIL threshold now m msg] := by
  unfold emailRows
  rw [he]

/-- The SMS channel block with no phone number present creates no row. -/
theorem smsRows_eq_none (user : User) (budget : Budget)
    (householdId : Option ℕ) (threshold now : ℕ) (m : AlertMetadata)
    (hp : user.phoneNumber = none) :
    smsRows user budget householdId threshold now m = [] := by
  unfold smsRows
  rw [hp]

/-- The SMS channel block with a phone number present is one row decided by
the send outcome. -/
theorem smsRows_eq_some (user : User) (budget : Budget)
    (householdId : Option ℕ) (threshold now : ℕ) (m : AlertMetadata)
    (ph : String) (hp : user.phoneNumber = some ph) :
    smsRows user budget householdId threshold now m
      = match sendSMS ph with
        | .ok _ => [sentAlertRow user budget householdId AlertType.SMS threshold now m]
        | .error msg =>
            [failedAlertRow user budget householdId AlertType.SMS threshold now m msg] := by
  unfold smsRows
  rw [hp]

/-- The email channel block creates exactly one row when an address is
present and none otherwise. -/
theorem emailRows_length (env : DeliveryEnv) (user : User) (budget : Budget)
    (householdId : Option ℕ) (threshold now : ℕ) (m : AlertMetadata) :
    (emailRows env user budget householdId threshold now m).length
      = (match user.email with | some _ => 1 | none => 0) := by
  cases he : user.email with
  | none =>
    rw [emailRows_eq_none env user budget householdId threshold now m he]
    rfl
  | some addr =>
    rw [emailRows_eq_some env user budget householdId threshold now m addr he]
    rcases env.sendEmail addr with _ | _ <;> rfl

/-- The SMS channel block creates exactly one row when a phone number is
present and none otherwise. -/
theorem smsRows_length (user : User) (budget : Budget)
    (householdId : Option ℕ) (threshold now : ℕ) (m : AlertMetadata) :
    (smsRows user budget householdId threshold now m).length
      = (match user.phoneNumber with | some _ => 1 | none => 0) := by
  cases hp : user.phoneNumber with
  | none =>
    rw [smsRows_eq_none user budget householdId threshold now m hp]
    rfl
  | some ph =>
    rw [smsRows_eq_some user budget householdId threshold now m ph hp]
    rcases sendSMS ph with _ | _ <;> rfl

/-- Field-level description of the email channel row: identified by user,
budget, threshold and metadata, SENT with `sentAt = now` on a successful
send, FAILED with the failure's description on a rejected send. -/
theorem emailRows_spec (env : DeliveryEnv) (user : User) (budget : Budget)
    (householdId : Option ℕ) (threshold now : ℕ) (m : AlertMetadata)
    (addr : String) (haddr : user.email = some addr) :
    ∀ a ∈ emailRows env user budget householdId threshold now m,
      a.alertType = AlertType.EMAIL ∧ a.userId = user._id ∧ a.budgetId = budget._id
        ∧ a.threshold = threshold ∧ a.metadata = some m
        ∧ (match env.sendEmail addr with
           | .ok _ => a.status = AlertStatus.SENT ∧ a.sentAt = some now ∧ a.errorMessage = none
           | .error msg =>
               a.status = AlertStatus.FAILED ∧ a.sentAt = none ∧ a.errorMessage = some msg) := by
  intro a ha
  rw [emailRows_eq_some env user budget householdId threshold now m addr haddr] at ha
  rcases henv : env.sendEmail addr with u | msg <;> rw [henv] at ha <;>
    simp only [List.mem_singleton] at ha <;> subst ha <;>
    simp [sentAlertRow, failedAlertRow]

/-- Field-level description of the SMS channel row, mirroring
`emailRows_spec` for the SMS send. -/
theorem smsRows_spec (user : User) (budget : Budget)
    (householdId : Option ℕ) (threshold now : ℕ) (m : AlertMetadata)
    (ph : String) (hph : user.phoneNumber = some ph) :
    ∀ a ∈ smsRows user budget householdId threshold now m,
      a.alertType = AlertType.SMS ∧ a.userId = user._id ∧ a.budgetId = budget._id
        ∧ a.threshold = threshold ∧ a.metadata = some m
        ∧ (match sendSMS ph with
           | .ok _ => a.status = AlertStatus.SENT ∧ a.sentAt = some now ∧ a.errorMessage = none
           | .error msg =>
               a.status = AlertStatus.FAILED ∧ a.sentAt = none ∧ a.errorMessage = some msg) := by
  intro a ha
  rw [smsRows_eq_some user budget householdId threshold now m ph hph] at ha
  rcases henv : sendSMS ph with u | msg <;> rw [henv] at ha <;>
    simp only [List.mem_singleton] at ha <;> subst ha <;>
    simp [sentAlertRow, failedAlertRow]

/-- Claim C5: dispatcher postcondition. When user and budget both resolve,
the dispatch appends exactly one Alert row per channel for which the user has
an address — SENT with `sentAt` on success, FAILED with the failure's
description on failure — the email outcome never prevents or removes the SMS
row and vice versa (the final ledger is the old one plus both channel
segments), and a channel without an address contributes no row. -/
theorem C5_dispatcher_postcondition (env : DeliveryEnv) (db : DB) (now : ℕ)
    (userId budgetId : ℕ) (householdId : Option ℕ) (threshold : ℕ)
    (m : AlertMetadata) (user : User) (budget : Budget)
    (hu : findUser db userId = some user)
    (hb : findBudget db budgetId = some budget) :
    ∃ eRows sRows,
      (sendBudgetAlertService env db now userId budgetId householdId threshold m).alerts
          = db.alerts ++ eRows ++ sRows
      ∧ eRows.length = (match user.email with | some _ => 1 | none => 0)
      ∧ sRows.length = (match user.phoneNumber with | some _ => 1 | none => 0)
      ∧ (∀ addr, user.email = some addr → ∀ a ∈ eRows,
          a.alertType = AlertType.EMAIL ∧ a.userId = user._id ∧ a.budgetId = budget._id
            ∧ a.threshold = threshold ∧ a.metadata = some m
            ∧ (match env.sendEmail addr with
               | .ok _ => a.status = AlertStatus.SENT ∧ a.sentAt = some now ∧ a.errorMessage = none
               | .error msg =>
                   a.status = AlertStatus.FAILED ∧ a.sentAt = none ∧ a.errorMessage = some msg))
      ∧ (∀ ph, user.phoneNumber = some ph → ∀ a ∈ sRows,
          a.alertType = AlertType.SMS ∧ a.userId = user._id ∧ a.budgetId = budget._id
            ∧ a.threshold = threshold ∧ a.metadata = some m
            ∧ (match sendSMS ph with
               | .ok _ => a.status = AlertStatus.SENT ∧ a.sentAt = some now ∧ a.errorMessage = none
               | .error msg =>
                   a.status = AlertStatus.FAILED ∧ a.sentAt = none ∧ a.errorMessage = some msg)) := by
  refine ⟨emailRows env user budget householdId threshold now m,
    smsRows user budget householdId threshold now m, ?_, ?_, ?_, ?_, ?_⟩
  · simp [sendBudgetAlertService, hu, hb]
  · exact emailRows_length env user budget householdId threshold now m
  · exact smsRows_length user budget householdId threshold now m
  · intro addr haddr
    exact emailRows_spec env user budget householdId threshold now m addr haddr
  · intro ph hph
    exact smsRows_spec user budget householdId threshold now m ph hph

/-- Claim C10: silent skip on dangling references. If the recipient's user
record or the budget record cannot be found, the dispatch returns the store
unchanged: no send, no Alert row, no error. -/
theorem C10_dangling_reference_skip (env : DeliveryEnv) (db : DB) (now : ℕ)
    (userId budgetId : ℕ) (householdId : Option ℕ) (threshold : ℕ)
    (m : AlertMetadata)
    (h : findUser db userId = none ∨ findBudget db budgetId = none) :
    sendBudgetAlertService env db now userId budgetId householdId threshold m = db := by
  rcases h with h | h
  · simp [sendBudgetAlertService, h]
  · cases hu : findUser db userId <;> simp [sendBudgetAlertService, hu, h]

/-- A delivery environment whose email sends all fail with a fixed reason. -/
def failEnv : DeliveryEnv := { sendEmail := fun _ => .error "SMTP connection refused" }

/-- Witness for C5 at a concrete store: user 7 (email and phone both present)
dispatched for budget 1 under an environment whose email send fails, yielding
one FAILED email row and one SENT SMS row. -/
theorem C5_dispatcher_postcondition_witness :
    ∃ eRows sRows,
      (sendBudgetAlertService failEnv exDb95 10 7 1 none 90
          { currentSpending := 475, budgetLimit := 500, percentageUsed := 95 }).alerts
          = exDb95.alerts ++ eRows ++ sRows
      ∧ eRows.length = (match exUser.email with | some _ => 1 | none => 0)
      ∧ sRows.length = (match exUser.phoneNumber with | some _ => 1 | none => 0)
      ∧ (∀ addr, exUser.email = some addr → ∀ a ∈ eRows,
          a.alertType = AlertType.EMAIL ∧ a.userId = exUser._id ∧ a.budgetId = exBudget._id
            ∧ a.threshold = 90
            ∧ a.metadata = some { currentSpending := 475, budgetLimit := 500, percentageUsed := 95 }
            ∧ (match failEnv.sendEmail addr with
               | .ok _ => a.status = AlertStatus.SENT ∧ a.sentAt = some 10 ∧ a.errorMessage = none
               | .error msg =>
                   a.status = AlertStatus.FAILED ∧ a.sentAt = none ∧ a.errorMessage = some msg))
      ∧ (∀ ph, exUser.phoneNumber = some ph → ∀ a ∈ sRows,
          a.alertType = AlertType.SMS ∧ a.userId = exUser._id ∧ a.budgetId = exBudget._id
            ∧ a.threshold = 90
            ∧ a.metadata = some { currentSpending := 475, budgetLimit := 500, percentageUsed := 95 }
            ∧ (match sendSMS ph with
               | .ok _ => a.status = AlertStatus.SENT ∧ a.sentAt = some 10 ∧ a.errorMessage = none
               | .error msg =>
                   a.status = AlertStatus.FAILED ∧ a.sentAt = none ∧ a.errorMessage = some msg)) :=
  C5_dispatcher_postcondition failEnv exDb95 10 7 1 none 90
    { currentSpending := 475, budgetLimit := 500, percentageUsed := 95 }
    exUser exBudget (by decide) (by decide)

/-- Witness for C10 at a concrete store: dispatching for an absent budget id
999 leaves the store untouched. -/
theorem C10_dangling_reference_skip_witness :
    sendBudgetAlertService okEnv exDb95 10 7 999 none 70
        { currentSpending := 475, budgetLimit := 500, percentageUsed := 95 }
      = exDb95 :=
  C10_dangling_reference_skip okEnv exDb95 10 7 999 none 70
    { currentSpending := 475, budgetLimit := 500, percentageUsed := 95 }
    (Or.inr (by decide))

/-- The empty store. -/
def emptyDb : DB :=
  { budgets := [], transactions := [], users := [], households := [], alerts := [] }

/-- Counterexample to C6 as stated: on a store with no budget 1,
`getBudgetStatusService` signals NotFound, but `checkBudgetThresholdsService`
does not — it resolves normally with the store unchanged and nothing
dispatched (alert service lines 21–24 return silently). -/
theorem C6_counterexample_check_is_silent :
    getBudgetStatusService emptyDb 0 30 1 = .error AppError.NotFound
      ∧ checkBudgetThresholdsService okEnv emptyDb 10 0 30 1
          = .ok { db := emptyDb, dispatched := [] }
      ∧ checkBudgetThresholdsService okEnv emptyDb 10 0 30 1
          ≠ .error AppError.NotFound := by
  refine ⟨rfl, rfl, ?_⟩
  intro h
  rw [show checkBudgetThresholdsService okEnv emptyDb 10 0 30 1
      = .ok { db := emptyDb, dispatched := [] } from rfl] at h
  exact Except.noConfusion h

/-- Claim C6 as amended: on an absent budget, `getBudgetStatusService`
signals NotFound to the caller (no silent default), while
`checkBudgetThresholdsService` silently resolves with no dispatch and no new
Alert row — it does not signal NotFound. -/
theorem C6_amended_notfound_behaviour (env : DeliveryEnv) (db : DB)
    (now monthStart monthEnd budgetId : ℕ)
    (h : findBudget db budgetId = none) :
    getBudgetStatusService db monthStart monthEnd budgetId = .error AppError.NotFound
      ∧ checkBudgetThresholdsService env db now monthStart monthEnd budgetId
          = .ok { db := db, dispatched := [] } := by
  unfold getBudgetStatusService checkBudgetThresholdsService
  rw [h]
  exact ⟨rfl, rfl⟩

/-- Witness for the amended C6 at the empty store. -/
theorem C6_amended_notfound_behaviour_witness :
    getBudgetStatusService emptyDb 0 30 5 = .error AppError.NotFound
      ∧ checkBudgetThresholdsService okEnv emptyDb 10 0 30 5
          = .ok { db := emptyDb, dispatched := [] } :=
  C6_amended_notfound_behaviour okEnv emptyDb 10 0 30 5 (by decide)

/-- Claim C7: inactive-budget short-circuit. For a budget whose active flag
is false, the status service returns the zero-spend snapshot whatever the
transaction ledger holds (it never consults it), and a threshold check leaves
the store unchanged and dispatches nothing. -/
theorem C7_inactive_short_circuit (env : DeliveryEnv) (db : DB)
    (now monthStart monthEnd budgetId : ℕ) (budget : Budget)
    (hb : findBudget db budgetId = some budget) (hin : budget.isActive = false) :
    (∀ txs : List Transaction,
        getBudgetStatusService { db with transactions := txs } monthStart monthEnd budgetId
          = .ok { totalSpentThisMonth := 0
                  budgetLimit := convertToDollarUnit budget.monthlyLimit
                  remaining := convertToDollarUnit budget.monthlyLimit
                  overBudget := false
                  percentageUsed := 0 })
      ∧ checkBudgetThresholdsService env db now monthStart monthEnd budgetId
          = .ok { db := db, dispatched := [] } := by
  constructor
  · intro txs
    unfold getBudgetStatusService
    rw [show findBudget { db with transactions := txs } budgetId = some budget from hb]
    simp [hin]
  · unfold checkBudgetThresholdsService
    rw [hb]
    simp [hin]

/-- An inactive budget with a $500.00 monthly limit. -/
def exBudgetInactive : Budget :=
  { _id := 3, type := BudgetType.USER, userId := some 7, householdId := none,
    monthlyLimit := 50000, name := "Paused", isActive := false }

/-- Store holding the inactive budget together with a completed expense. -/
def exDbInactive : DB :=
  { budgets := [exBudgetInactive], transactions := [exTx95], users := [exUser],
    households := [], alerts := [] }

/-- Witness for C7 at a concrete store: the inactive budget 3 reports zero
spend for any ledger and its check does nothing. -/
theorem C7_inactive_short_circuit_witness :
    (∀ txs : List Transaction,
        getBudgetStatusService { exDbInactive with transactions := txs } 0 30 3
          = .ok { totalSpentThisMonth := 0
                  budgetLimit := convertToDollarUnit exBudgetInactive.monthlyLimit
                  remaining := convertToDollarUnit exBudgetInactive.monthlyLimit
                  overBudget := false
                  percentageUsed := 0 })
      ∧ checkBudgetThresholdsService okEnv exDbInactive 10 0 30 3
          = .ok { db := exDbInactive, dispatched := [] } :=
  C7_inactive_short_circuit okEnv exDbInactive 10 0 30 3 exBudgetInactive
    (by decide) (by decide)

/-- A SENT threshold-70 email alert for recipient 1, created at time 1. -/
def c8Alert70 : Alert :=
  { userId := 1, budgetId := 1, householdId := none, alertType := AlertType.EMAIL,
    threshold := 70, status := AlertStatus.SENT, sentAt := some 1,
    errorMessage := none, metadata := none, createdAt := 1 }

/-- A FAILED threshold-90 SMS alert for recipient 1, created at time 2. -/
def c8Alert90 : Alert :=
  { userId := 1, budgetId := 1, householdId := none, alertType := AlertType.SMS,
    threshold := 90, status := AlertStatus.FAILED, sentAt := none,
    errorMessage := some "boom", metadata := none, createdAt := 2 }

/-- Store holding the two ledger rows for recipient 1. -/
def c8Db : DB :=
  { budgets := [], transactions := [], users := [], households := [],
    alerts := [c8Alert70, c8Alert90] }

/-- Counterexample to C8 as stated: with a supplied threshold filter of 0 the
query returns an alert whose threshold is 70 (the filter is dropped by JS
falsiness), and with a supplied limit of 0 it returns 2 results rather than
at most 0 (`filters?.limit || 50` turns 0 into the default 50). -/
theorem C8_counterexample_falsy_filters :
    (c8Alert70 ∈ getUserAlertsService c8Db 1
        { budgetId := none, status := none, threshold := some 0, limit := none }
      ∧ ¬ c8Alert70.threshold = 0)
      ∧ (getUserAlertsService c8Db 1
            { budgetId := none, status := none, threshold := none, limit := some 0 }).length = 2
      ∧ ¬ (getUserAlertsService c8Db 1
            { budgetId := none, status := none, threshold := none, limit := some 0 }).length ≤ 0 := by
  decide

/-- Claim C8 as amended: the query returns only the recipient's ledger rows
satisfying every supplied filter — where a threshold filter supplied as 0 is
dropped (JS falsiness) — in descending creation-time order, and returns at
most `limit` results, the limit defaulting to 50 when it is not supplied or
supplied as 0. -/
theorem C8_amended_ledger_query_contract (db : DB) (userId : ℕ)
    (filters : AlertFilters) :
    (∀ a ∈ getUserAlertsService db userId filters,
        a ∈ db.alerts
          ∧ a.userId = userId
          ∧ (∀ b, filters.budgetId = some b → a.budgetId = b)
          ∧ (∀ s, filters.status = some s → a.status = s)
          ∧ (∀ t, filters.threshold = some t → t ≠ 0 → a.threshold = t))
      ∧ List.Sorted createdDesc (getUserAlertsService db userId filters)
      ∧ (getUserAlertsService db userId filters).length
          ≤ (match filters.limit with
             | some l => if l ≠ 0 then l else 50
             | none => 50) := by
  refine ⟨?_, ?_, ?_⟩
  · intro a ha
    have h1 : a ∈ List.insertionSort createdDesc
        (db.alerts.filter (alertQueryMatches userId filters)) :=
      List.mem_of_mem_take ha
    have h2 : a ∈ db.alerts.filter (alertQueryMatches userId filters) :=
      (List.perm_insertionSort createdDesc _).mem_iff.mp h1
    obtain ⟨hmem, hmatch⟩ := List.mem_filter.mp h2
    unfold alertQueryMatches at hmatch
    simp only [Bool.and_eq_true, beq_iff_eq] at hmatch
    obtain ⟨⟨⟨huser, hbud⟩, hstat⟩, hthr⟩ := hmatch
    refine ⟨hmem, huser, ?_, ?_, ?_⟩
    · intro b hbf
      rw [hbf] at hbud
      simpa using hbud
    · intro s hsf
      rw [hsf] at hstat
      simpa using hstat
    · intro t htf ht0
      rw [htf] at hthr
      simpa [ht0] using hthr
  · exact List.Pairwise.sublist (List.take_sublist _ _)
      (List.sorted_insertionSort createdDesc _)
  · exact List.length_take_le _ _

/-- Witness for the amended C8 at a concrete store: recipient 1's unfiltered
query returns rows of recipient 1 only, sorted newest first, within the
default page size. -/
theorem C8_amended_ledger_query_contract_witness :
    c8Alert90.userId = 1
      ∧ List.Sorted createdDesc (getUserAlertsService c8Db 1
          { budgetId := none, status := none, threshold := none, limit := none })
      ∧ (getUserAlertsService c8Db 1
          { budgetId := none, status := none, threshold := none, limit := none }).length ≤ 50 := by
  obtain ⟨hmem, hsort, hlen⟩ := C8_amended_ledger_query_contract c8Db 1
    { budgetId := none, status := none, threshold := none, limit := none }
  exact ⟨(hmem c8Alert90 (by decide)).2.1, hsort, hlen⟩
